import Mathlib

/-!
Verification of the semantic binder of the terrier SQL front-end
(src/binder/bind_node_visitor.cpp) against its natural-language
specification.

The development shallowly embeds the binder:

* The statement and expression parse tree becomes a family of inductive
  types; the in-place mutation performed by the C++ visitors becomes
  functions returning the updated node.
* The member variable context_ (a parent-linked chain of BinderContext
  frames) becomes a list of frames, head = innermost (current) frame.
  Allocating a frame (context_ = new BinderContext(parent)) is consing
  onto the list; deleting and moving to the upper context is dropping
  the head.  A null context_ is the empty list.
* C++ exceptions (BINDER_EXCEPTION) become an error-carrying result
  BRes that also records the state of the binder members at the throw
  point, exactly as the C++ members would retain their values when the
  exception propagates out of the visitor.
* Helper classes whose implementation is not part of the sources here
  (BinderContext internals, BinderUtil::Convert, the catalog accessor,
  expression annotation helpers) are modelled from the specification;
  each such definition carries a doc comment saying so.

Machine integers play no role in the verified claims, so oids are plain
naturals with the reserved invalid value 0 (the sentinel used by the
catalog for a failed lookup).
-/

namespace Terrier

/-! ## Basic identifier and type model -/

/-- Oid values issued by the catalog.  The reserved value 0 is the
invalid sentinel denoting a failed lookup. -/
abbrev Oid := Nat

/-- Sentinel database oid for a failed catalog lookup. -/
def INVALID_DATABASE_OID : Oid := 0

/-- Sentinel table oid for a failed catalog lookup. -/
def INVALID_TABLE_OID : Oid := 0

/-- Sentinel column oid for a failed catalog lookup. -/
def INVALID_COLUMN_OID : Oid := 0

/-- Sentinel index oid for a failed catalog lookup. -/
def INVALID_INDEX_OID : Oid := 0

/-- Value types of the SQL type system, as used by the binder. -/
inductive TypeId where
  | Boolean
  | Integer
  | Decimal
  | Varchar
  | Date
  | Invalid
  deriving DecidableEq, Repr

/-- Transient values carried by constant expressions. -/
inductive SqlValue where
  | intV (i : Int)
  | strV (s : String)
  | dateV (d : Nat)
  | boolV (b : Bool)
  | nullV
  deriving DecidableEq, Repr

/-- Lowercasing of a single character, the model of ::tolower as the
binder applies it to ASCII identifiers. -/
def lowerChar (c : Char) : Char :=
  if 65 ≤ c.toNat ∧ c.toNat ≤ 90 then Char.ofNat (c.toNat + 32) else c

/-- Lowercasing of an identifier: std::transform(..., ::tolower) in the
source. -/
def strLower (s : String) : String := ⟨s.data.map lowerChar⟩

/-! ## Errors

The source throws a single exception type, BINDER_EXCEPTION, carrying a
message.  The specification classifies the throw sites into error
kinds; the embedding records both the kind (per the taxonomy of spec
section 7, assigned per throw site) and the exact message string built
by the source. -/

/-- Error kinds of the binder error taxonomy (spec section 7).
The Internal kind does not occur in the source; it is produced only
when the fuel of the embedded recursive traversal runs out, a situation
every theorem below excludes. -/
inductive BindErrorKind where
  | NotFound
  | AlreadyExists
  | AmbiguousReference
  | MissingAlias
  | ArityMismatch
  | TypeMismatch
  | InvalidStar
  | InvalidReference
  | Internal
  deriving DecidableEq, Repr

/-- Binder error: a kind plus the message string of the C++ throw site. -/
structure BindError where
  kind : BindErrorKind
  msg : String
  deriving DecidableEq, Repr

/-! ## Schema and catalog (modelled from the spec) -/

/-- Modelled from the spec: one column of a catalog schema, the
(column_name, column_oid, value_type) triple of the data model table
in spec section 3 (default and check expressions omitted: the binder
code under verification never reads them from the catalog). -/
structure SchemaColumn where
  name : String
  oid : Oid
  type : TypeId
  deriving DecidableEq, Repr

/-- Modelled from the spec: a catalog schema, an ordered list of
columns (order is the storage/insert order). -/
structure Schema where
  columns : List SchemaColumn
  deriving DecidableEq, Repr

/-- Modelled from the spec: Schema.get_column by position.  Positions
past the end return the invalid column (the C++ code never reaches
them on the verified paths). -/
def Schema.GetColumnAt (s : Schema) (i : Nat) : SchemaColumn :=
  (s.columns.drop i).headD ⟨"", INVALID_COLUMN_OID, TypeId.Invalid⟩

/-- Modelled from the spec: Schema.get_column by name.  Column names
are compared case-insensitively (name normalization, spec section
4.2); a missing name yields the column with the invalid oid sentinel,
matching the oid_or_invalid convention of the catalog read interface. -/
def Schema.GetColumnNamed (s : Schema) (n : String) : SchemaColumn :=
  match s.columns.find? (fun c => strLower c.name = strLower n) with
  | some c => c
  | none => ⟨"", INVALID_COLUMN_OID, TypeId.Invalid⟩

/-- Modelled from the spec: the catalog read interface, an opaque
handle offering lookups by name returning stable identifiers or the
invalid sentinel (spec section 6).  The embedding represents it as
finite association lists. -/
structure CatalogAccessor where
  databases : List (String × Oid)
  tables : List (String × Oid)
  indexes : List (String × Oid)
  schemas : List (Oid × Schema)
  deriving DecidableEq, Repr

/-- Modelled from the spec: get_database_oid(name) returning the oid or
the invalid sentinel. -/
def CatalogAccessor.GetDatabaseOid (cat : CatalogAccessor) (name : String) : Oid :=
  match cat.databases.find? (fun p => p.1 = name) with
  | some p => p.2
  | none => INVALID_DATABASE_OID

/-- Modelled from the spec: get_table_oid(name) returning the oid or
the invalid sentinel. -/
def CatalogAccessor.GetTableOid (cat : CatalogAccessor) (name : String) : Oid :=
  match cat.tables.find? (fun p => p.1 = name) with
  | some p => p.2
  | none => INVALID_TABLE_OID

/-- Modelled from the spec: get_index_oid(name) returning the oid or
the invalid sentinel. -/
def CatalogAccessor.GetIndexOid (cat : CatalogAccessor) (name : String) : Oid :=
  match cat.indexes.find? (fun p => p.1 = name) with
  | some p => p.2
  | none => INVALID_INDEX_OID

/-- Modelled from the spec: get_schema(table_oid).  An unknown oid
yields the empty schema. -/
def CatalogAccessor.GetSchema (cat : CatalogAccessor) (t : Oid) : Schema :=
  match cat.schemas.find? (fun p => p.1 = t) with
  | some p => p.2
  | none => ⟨[]⟩

end Terrier

namespace Terrier

/-! ## Binder context frames

The implementation of BinderContext is not among the sources here (only
its call sites in bind_node_visitor.cpp are), so the frame content and
the context operations are modelled from the specification, sections 3
and 4.2. -/

/-- Modelled from the spec: a RegularTableBinding, the
(alias, db_oid, table_oid, schema_snapshot) tuple of the data model. -/
structure RegularTableBinding where
  tableAlias : String
  dbOid : Oid
  tableOid : Oid
  schema : Schema
  deriving DecidableEq, Repr

/-- Modelled from the spec: a NestedTableBinding, an alias plus the
ordered projected (name, type) columns of a bound subselect. -/
structure NestedTableBinding where
  tableAlias : String
  columns : List (String × TypeId)
  deriving DecidableEq, Repr

/-- Modelled from the spec: a NewTableBinding for an in-progress CREATE
TABLE, the table name plus its declared (name, type) columns. -/
structure NewTableBinding where
  tableName : String
  columns : List (String × TypeId)
  deriving DecidableEq, Repr

/-- Modelled from the spec: one scope frame.  Binding lists keep
insertion order, oldest first. -/
structure BinderContext where
  regularTables : List RegularTableBinding
  nestedTables : List NestedTableBinding
  newTables : List NewTableBinding
  deriving DecidableEq, Repr

/-- Freshly allocated empty frame. -/
def BinderContext.empty : BinderContext := ⟨[], [], []⟩

/-- Frame stack reachable from the member context_: head is the current
(innermost) frame, the tail its chain of parents.  An empty list is a
null context_. -/
abbrev ContextStack := List BinderContext

/-- Modelled from the spec: BinderContext::ColumnInSchema, membership
of a column name in a schema, compared case-insensitively (name
normalization, spec section 4.2). -/
def BinderContext.ColumnInSchema (s : Schema) (col : String) : Bool :=
  s.columns.any (fun c => strLower c.name = strLower col)

/-- Modelled from the spec: add_regular_table.  Consults the catalog
for (db_oid, table_oid, schema) and stores the binding under the given
alias in the current frame, after the bindings already present. -/
def addRegularTable (cat : CatalogAccessor) (dbName tableName a : String)
    (st : ContextStack) : ContextStack :=
  match st with
  | [] => []
  | f :: rest =>
    let tOid := cat.GetTableOid tableName
    ({ f with regularTables :=
        f.regularTables ++ [⟨a, cat.GetDatabaseOid dbName, tOid, cat.GetSchema tOid⟩] }) :: rest

/-- Modelled from the spec: add_nested_table, installing a
NestedTableBinding in the current frame. -/
def addNestedTable (a : String) (cols : List (String × TypeId)) (st : ContextStack) : ContextStack :=
  match st with
  | [] => []
  | f :: rest => ({ f with nestedTables := f.nestedTables ++ [⟨a, cols⟩] }) :: rest

/-- Modelled from the spec: add_new_table, installing a NewTableBinding
in the current frame. -/
def addNewTable (name : String) (cols : List (String × TypeId)) (st : ContextStack) : ContextStack :=
  match st with
  | [] => []
  | f :: rest => ({ f with newTables := f.newTables ++ [⟨name, cols⟩] }) :: rest

/-- Modelled from the spec: GetTableMapping, the current-frame lookup
of a regular binding by the exact alias string it was stored under. -/
def getTableMapping (st : ContextStack) (name : String) : Option RegularTableBinding :=
  match st with
  | [] => none
  | f :: _ => f.regularTables.find? (fun t => t.tableAlias = name)

/-- Modelled from the spec: has_any_regular_tables of the current
frame, used to validate a star item. -/
def hasTables (st : ContextStack) : Bool :=
  match st with
  | [] => false
  | f :: _ => !f.regularTables.isEmpty

/-- Modelled from the spec: the regular tables of one frame whose
schema contains the column, in insertion order. -/
def frameMatches (f : BinderContext) (colName : String) : List RegularTableBinding :=
  f.regularTables.filter (fun t => BinderContext.ColumnInSchema t.schema colName)

/-- Modelled from the spec: BinderContext::SetColumnPosTuple, the
unqualified-column search (resolve_unqualified, spec section 4.2):
frames are searched innermost to outermost; within a frame the regular
tables are iterated in insertion order; a unique containing table in
the innermost frame having one wins, two containing tables within the
same frame are an ambiguity error, and a frame with no containing
table defers to its parent.  Returns none when no frame contains the
column (the C++ function returning false, its caller raising the
not-found error). -/
def setColumnPosTuple : ContextStack → String → Except BindError (Option RegularTableBinding)
  | [], _ => .ok none
  | f :: rest, colName =>
    match frameMatches f colName with
    | [] => setColumnPosTuple rest colName
    | [t] => .ok (some t)
    | _ => .error ⟨.AmbiguousReference, "Ambiguous column name " ++ colName⟩

/-- Modelled from the spec: BinderContext::GetRegularTableObj, the
search over all frames, innermost to outermost, for a regular binding
whose alias matches case-insensitively (the argument is already
lowercased by the caller). -/
def getRegularTableObj : ContextStack → String → Option RegularTableBinding
  | [], _ => none
  | f :: rest, a =>
    match f.regularTables.find? (fun t => strLower t.tableAlias = a) with
    | some t => some t
    | none => getRegularTableObj rest a

/-- Modelled from the spec: BinderContext::CheckNestedTableColumn, the
search over all frames for a nested (subselect) binding whose alias
matches; when one is chosen the column is required to be among its
projected columns, a missing column being a not-found error.  Returns
none when no frame has a nested binding with the alias. -/
def checkNestedTableColumn : ContextStack → String → String →
    Except BindError (Option (String × TypeId))
  | [], _, _ => .ok none
  | f :: rest, a, colName =>
    match f.nestedTables.find? (fun t => strLower t.tableAlias = a) with
    | some nt =>
      match nt.columns.find? (fun c => strLower c.1 = colName) with
      | some c => .ok (some c)
      | none => .error ⟨.NotFound, "Cannot find column " ++ colName⟩
    | none => checkNestedTableColumn rest a colName

end Terrier

namespace Terrier

/-! ## Parse tree -/

/-- Parser ColumnValueExpression: the stored names plus the oid triple
and return type that binding fills in.  A freshly parsed node carries
the invalid sentinels. -/
structure ColumnValueExpression where
  tableName : String
  columnName : String
  databaseOid : Oid
  tableOid : Oid
  columnOid : Oid
  retType : TypeId
  deriving DecidableEq, Repr

mutual

/-- Expression nodes of the parse tree, covering the variants the
binder visitor dispatches on (constants, explicit casts, column
references, star, operators, aggregates, case and scalar subqueries). -/
inductive AbstractExpression where
  | constant (retType : TypeId) (value : SqlValue)
  | typeCast (target : TypeId) (children : List AbstractExpression)
  | columnValue (cv : ColumnValueExpression)
  | star
  | operatorExpr (retType : TypeId) (children : List AbstractExpression)
  | aggregate (retType : TypeId) (children : List AbstractExpression)
  | caseExpr (whenConditions : List AbstractExpression)
  | subquery (sub : SelectStatement)

/-- Parser SelectStatement: FROM table, WHERE condition, ORDER BY,
LIMIT, GROUP BY (columns plus optional HAVING), the select list, and
the depth annotation filled in by binding. -/
inductive SelectStatement where
  | mk (table : Option TableRef) (condition : Option AbstractExpression)
       (orderBy : Option (List AbstractExpression))
       (limit : Bool)
       (groupBy : Option (List AbstractExpression × Option AbstractExpression))
       (columns : List AbstractExpression)
       (depth : Int)

/-- Parser TableRef: names, optional alias, and exactly one of a
query-derived subselect, a join, a comma list, or a single named
table (the fixed dispatch order of the visitor). -/
inductive TableRef where
  | mk (dbName nsName tableName refAlias : String)
       (select : Option SelectStatement)
       (join : Option JoinDefinition)
       (list : List TableRef)

/-- Parser JoinDefinition: left and right table plus the join
condition. -/
inductive JoinDefinition where
  | mk (left : TableRef) (right : TableRef) (condition : AbstractExpression)

end

/-- Projection: select-list columns of a SelectStatement. -/
def SelectStatement.columns : SelectStatement → List AbstractExpression
  | .mk _ _ _ _ _ cols _ => cols

/-- Projection: FROM table of a SelectStatement. -/
def SelectStatement.table : SelectStatement → Option TableRef
  | .mk t _ _ _ _ _ _ => t

/-- Projection: WHERE condition of a SelectStatement. -/
def SelectStatement.condition : SelectStatement → Option AbstractExpression
  | .mk _ c _ _ _ _ _ => c

/-- Projection: depth annotation of a SelectStatement. -/
def SelectStatement.depth : SelectStatement → Int
  | .mk _ _ _ _ _ _ d => d

/-- Projection: database name of a TableRef. -/
def TableRef.dbName : TableRef → String
  | .mk d _ _ _ _ _ _ => d

/-- Projection: table name of a TableRef. -/
def TableRef.tableName : TableRef → String
  | .mk _ _ t _ _ _ _ => t

/-- Projection: alias of a TableRef. -/
def TableRef.refAlias : TableRef → String
  | .mk _ _ _ a _ _ _ => a

/-- Projection: query-derived subselect of a TableRef. -/
def TableRef.select : TableRef → Option SelectStatement
  | .mk _ _ _ _ s _ _ => s

/-- Projection: join of a TableRef. -/
def TableRef.join : TableRef → Option JoinDefinition
  | .mk _ _ _ _ _ j _ => j

/-- Projection: comma list of a TableRef. -/
def TableRef.list : TableRef → List TableRef
  | .mk _ _ _ _ _ _ l => l

/-- Return value type stored on an expression node
(AbstractExpression::GetReturnValueType). -/
def AbstractExpression.GetReturnValueType : AbstractExpression → TypeId
  | .constant t _ => t
  | .typeCast t _ => t
  | .columnValue cv => cv.retType
  | .star => .Invalid
  | .operatorExpr t _ => t
  | .aggregate t _ => t
  | .caseExpr _ => .Invalid
  | .subquery _ => .Invalid

/-- Test for GetExpressionType() == ExpressionType::OPERATOR_CAST, the
explicit-cast test of the INSERT value loop. -/
def AbstractExpression.isCastExpression : AbstractExpression → Bool
  | .typeCast _ _ => true
  | _ => false

/-- Modelled from the spec: the display name of an expression
(spec section 4.3); only the column-reference case (its column name)
is consumed by the verified claims, through the projected columns of a
nested table binding. -/
def AbstractExpression.exprName : AbstractExpression → String
  | .columnValue cv => cv.columnName
  | _ => ""

/-- Modelled from the spec: the projected (name, type) columns a bound
subselect contributes to its NestedTableBinding. -/
def nestedColumns (cols : List AbstractExpression) : List (String × TypeId) :=
  cols.map (fun e => (e.exprName, e.GetReturnValueType))

/-! ## ColumnValueExpression binding -/

/-- Modelled from the spec: the static
BinderContext::SetColumnPosTuple(col_name, tuple, expr) writing the
resolved (db_oid, table_oid, col_oid) triple and the schema column
type into the expression.  The stored display names keep their
original spelling. -/
def applyTableBinding (colName : String) (db tbl : Oid) (s : Schema)
    (expr : ColumnValueExpression) : ColumnValueExpression :=
  let c := s.GetColumnNamed colName
  { expr with databaseOid := db, tableOid := tbl, columnOid := c.oid, retType := c.type }

/-- Modelled from the spec: the expression update performed when a
column resolves against a nested (subselect) binding: the projected
column type becomes the return type; nested tables carry no catalog
oids. -/
def applyNestedBinding (c : String × TypeId) (expr : ColumnValueExpression) :
    ColumnValueExpression :=
  { expr with retType := c.2 }

/-- Embedding of BindNodeVisitor::Visit(parser::ColumnValueExpression*)
(bind_node_visitor.cpp lines 450-481).  A node whose table oid is
already valid is skipped entirely.  Otherwise the stored table and
column names are lowercased; an empty table name goes through the
unqualified search (not-found when no frame contains the column, the
message naming the lowercased column), and a present table name first
goes through the regular-binding lookup over all frames (a match whose
schema lacks the column being a not-found error) and only on failure
through the nested-binding lookup, an absent alias being an invalid
table reference naming the originally spelled table name.  The visit
never touches the frame stack, which it only reads. -/
def columnValueVisit (st : ContextStack) (expr : ColumnValueExpression) :
    Except BindError ColumnValueExpression :=
  if expr.tableOid ≠ INVALID_TABLE_OID then .ok expr
  else
    let tableName := strLower expr.tableName
    let colName := strLower expr.columnName
    if tableName = "" then
      match setColumnPosTuple st colName with
      | .error e => .error e
      | .ok none => .error ⟨.NotFound, "Cannot find column " ++ colName⟩
      | .ok (some t) => .ok (applyTableBinding colName t.dbOid t.tableOid t.schema expr)
    else
      match getRegularTableObj st tableName with
      | some t =>
        if BinderContext.ColumnInSchema t.schema colName then
          .ok (applyTableBinding colName t.dbOid t.tableOid t.schema expr)
        else
          .error ⟨.NotFound, "Cannot find column " ++ colName⟩
      | none =>
        match checkNestedTableColumn st tableName colName with
        | .error e => .error e
        | .ok none => .error ⟨.InvalidReference, "Invalid table reference " ++ expr.tableName⟩
        | .ok (some c) => .ok (applyNestedBinding c expr)

end Terrier

namespace Terrier

/-! ## Statement nodes -/

/-- Parser InsertStatement: target table, optional named insert
columns, and either an embedded SELECT or the VALUES rows. -/
structure InsertStatement where
  table : TableRef
  insertColumns : List String
  select : Option SelectStatement
  values : List (List AbstractExpression)

/-- Create type selector of a parser CreateStatement. -/
inductive CreateType where
  | kDatabase
  | kTable
  | kIndex
  | kTrigger
  | kSchema
  | kView
  deriving DecidableEq, Repr

/-- Parser ColumnDefinition of a CREATE TABLE: declared name, value
type, optional DEFAULT and CHECK expressions. -/
structure ColumnDefinition where
  name : String
  valueType : TypeId
  defaultExpression : Option AbstractExpression
  checkExpression : Option AbstractExpression

/-- Parser foreign-key clause: source columns (declared in this
CREATE), sink columns, and the referenced sink table name. -/
structure ForeignKeyDefinition where
  sources : List String
  sinks : List String
  sinkTableName : String
  deriving DecidableEq, Repr

/-- Index attribute of a CREATE INDEX: either an expression or a bare
column name. -/
inductive IndexAttribute where
  | expr (e : AbstractExpression)
  | name (n : String)

/-- Parser CreateStatement covering the variants the binder dispatches
on. -/
structure CreateStatement where
  createType : CreateType
  databaseName : String
  tableName : String
  indexName : String
  columns : List ColumnDefinition
  foreignKeys : List ForeignKeyDefinition
  indexAttributes : List IndexAttribute
  viewQuery : Option SelectStatement
  triggerWhen : Option AbstractExpression

/-- Drop type selector of a parser DropStatement. -/
inductive DropType where
  | kDatabase
  | kTable
  | kIndex
  | kTrigger
  | kSchema
  | kView
  | kPreparedStatement
  deriving DecidableEq, Repr

/-- Parser DropStatement. -/
structure DropStatement where
  dropType : DropType
  databaseName : String
  tableName : String
  indexName : String
  deriving DecidableEq, Repr

/-- Modelled from the spec: TryBindDatabaseName on a TableRef, applying
the default database name when the statement names none. -/
def TableRef.tryBindDatabaseName (ddb : String) : TableRef → TableRef
  | .mk d n t a s j l => .mk (if d = "" then ddb else d) n t a s j l

/-- Modelled from the spec: TryBindDatabaseName on a DropStatement. -/
def DropStatement.tryBindDatabaseName (ddb : String) (node : DropStatement) : DropStatement :=
  { node with databaseName := if node.databaseName = "" then ddb else node.databaseName }

/-- Modelled from the spec: TryBindDatabaseName on a CreateStatement. -/
def CreateStatement.tryBindDatabaseName (ddb : String) (node : CreateStatement) : CreateStatement :=
  { node with databaseName := if node.databaseName = "" then ddb else node.databaseName }

/-! ## Value coercion (modelled from the spec) -/

/-- Decimal digit value of a character. -/
def digitVal (c : Char) : Option Nat :=
  if 48 ≤ c.toNat ∧ c.toNat ≤ 57 then some (c.toNat - 48) else none

/-- Parse of a nonempty all-digit character list. -/
def parseDigits (cs : List Char) : Option Nat :=
  if cs.isEmpty then none
  else cs.foldl (fun acc c => acc.bind (fun n => (digitVal c).map (fun d => n * 10 + d))) (some 0)

/-- Parse of an optionally negated decimal integer string. -/
def parseIntString (s : String) : Option Int :=
  match s.data with
  | '-' :: rest => (parseDigits rest).map (fun n => -(n : Int))
  | cs => (parseDigits cs).map (fun n => (n : Int))

/-- Parse of an ISO y-m-d date string, encoded as y*10000 + m*100 + d. -/
def parseDateString (s : String) : Option Nat :=
  match s.data.splitOn '-' with
  | [y, m, d] =>
    match parseDigits y, parseDigits m, parseDigits d with
    | some yn, some mn, some dn =>
      if 1 ≤ mn ∧ mn ≤ 12 ∧ 1 ≤ dn ∧ dn ≤ 31 then some (yn * 10000 + mn * 100 + dn) else none
    | _, _, _ => none
  | _ => none

/-- Modelled from the spec: coercion of a literal value to a target
type (spec section 4.4): a string parsing as an ISO date coerces to a
date, a string parsing as an integer coerces to an integer, an integer
widens to a decimal; anything else is a type-mismatch failure. -/
def convertValue (v : SqlValue) (target : TypeId) : Except BindError AbstractExpression :=
  match v, target with
  | .strV s, .Date =>
    match parseDateString s with
    | some d => .ok (.constant .Date (.dateV d))
    | none => .error ⟨.TypeMismatch, "Value cannot be coerced to the target type"⟩
  | .strV s, .Integer =>
    match parseIntString s with
    | some n => .ok (.constant .Integer (.intV n))
    | none => .error ⟨.TypeMismatch, "Value cannot be coerced to the target type"⟩
  | .intV n, .Decimal => .ok (.constant .Decimal (.intV n))
  | _, _ => .error ⟨.TypeMismatch, "Value cannot be coerced to the target type"⟩

/-- Modelled from the spec: BinderUtil::Convert (the implementation of
binder_util is not among the sources here), the contract of Value
Coercion in spec section 4.4: an expression already of the target type
is returned unchanged, a convertible literal becomes a new literal of
the coerced value, an explicit cast to the target type is simplified
to a literal where possible, and an impossible conversion fails with a
type mismatch. -/
def BinderUtil.Convert (e : AbstractExpression) (target : TypeId) :
    Except BindError AbstractExpression :=
  match e with
  | .constant t v => if t = target then .ok e else convertValue v target
  | .typeCast t children =>
    if t = target then
      match children with
      | [.constant ct v] => if ct = target then .ok (.constant ct v) else convertValue v target
      | _ => .error ⟨.TypeMismatch, "Value cannot be coerced to the target type"⟩
    else .error ⟨.TypeMismatch, "Value cannot be coerced to the target type"⟩
  | _ => .error ⟨.TypeMismatch, "Value cannot be coerced to the target type"⟩

/-! ## INSERT input validation (bind_node_visitor.cpp lines 330-379) -/

/-- Embedding of the insert-column existence test (lines 332-339): every
named insert column must be in the table schema. -/
def checkInsertColumns (tableSchema : Schema) : List String → Option BindError
  | [] => none
  | c :: rest =>
    if BinderContext.ColumnInSchema tableSchema c then checkInsertColumns tableSchema rest
    else some ⟨.NotFound, "Insert column does not exist"⟩

/-- Embedding of the per-row column-count test (lines 348-356): with
insert columns specified (their count nonzero) the row arity must
equal that count, otherwise it must equal the schema column count. -/
def checkInsertRowArity (numInsertColumns numSchemaColumns numValues : Nat) :
    Option BindError :=
  let isInsertColsSpecified : Bool := numInsertColumns != 0
  let insertColsOk : Bool := isInsertColsSpecified && (numValues == numInsertColumns)
  let insertSchemaOk : Bool := !isInsertColsSpecified && (numValues == numSchemaColumns)
  if !(insertColsOk || insertSchemaOk) then
    some ⟨.ArityMismatch, "Mismatch in number of insert columns and number of insert values."⟩
  else none

/-- Embedding of the value-cell body (lines 358-377): the expected type
is the type of the schema column at the cell's index; when the cell is
an explicit cast or its return type differs from that expected type,
BinderUtil::Convert replaces it and the synthesized expression is
interned into the parse result, otherwise the cell stays untouched. -/
def processValueCell (pr : List AbstractExpression) (tableSchema : Schema) (i : Nat)
    (expr : AbstractExpression) :
    Except BindError (AbstractExpression × List AbstractExpression) :=
  let retType := expr.GetReturnValueType
  let expectedRetType := (tableSchema.GetColumnAt i).type
  let isCast := expr.isCastExpression
  let mismatchedType : Bool := retType != expectedRetType
  if isCast || mismatchedType then
    match BinderUtil.Convert expr expectedRetType with
    | .ok converted => .ok (converted, pr ++ [converted])
    | .error e => .error e
  else .ok (expr, pr)

/-- Embedding of the cell loop over one values row (lines 358-377),
threading the parse-result container and stopping at the first
failing cell. -/
def processRowCells (tableSchema : Schema) (i : Nat) (pr : List AbstractExpression) :
    List AbstractExpression →
    Except BindError (List AbstractExpression × List AbstractExpression)
  | [] => .ok ([], pr)
  | e :: rest =>
    match processValueCell pr tableSchema i e with
    | .error err => .error err
    | .ok (e', pr') =>
      match processRowCells tableSchema (i + 1) pr' rest with
      | .error err => .error err
      | .ok (rest', pr'') => .ok (e' :: rest', pr'')

/-- Embedding of the per-row processing (lines 346-378): the arity test
precedes the cell loop. -/
def processInsertRow (tableSchema : Schema) (numInsertColumns : Nat)
    (pr : List AbstractExpression) (row : List AbstractExpression) :
    Except BindError (List AbstractExpression × List AbstractExpression) :=
  match checkInsertRowArity numInsertColumns tableSchema.columns.length row.length with
  | some e => .error e
  | none => processRowCells tableSchema 0 pr row

/-- Embedding of the rows loop (lines 346-378), first error aborting. -/
def processInsertRows (tableSchema : Schema) (numInsertColumns : Nat)
    (pr : List AbstractExpression) :
    List (List AbstractExpression) →
    Except BindError (List (List AbstractExpression) × List AbstractExpression)
  | [] => .ok ([], pr)
  | row :: rest =>
    match processInsertRow tableSchema numInsertColumns pr row with
    | .error err => .error err
    | .ok (row', pr') =>
      match processInsertRows tableSchema numInsertColumns pr' rest with
      | .error err => .error err
      | .ok (rest', pr'') => .ok (row' :: rest', pr'')

/-! ## CREATE TABLE foreign-key validation (lines 218-254) -/

/-- Embedding of the source-column search of the foreign-key loop
(lines 239-252): the declared columns of this CREATE are scanned for
the first one whose name equals the source name under the exact
(case-sensitive) string comparison the source performs. -/
def fkFindSourceColumn (cols : List ColumnDefinition) (src : String) :
    Option ColumnDefinition :=
  cols.find? (fun c => c.name = src)

/-- Embedding of one iteration of the foreign-key pair loop (lines
233-253): the sink column must exist in the sink table's schema, and
the source column must be among the declared columns with the sink
column's value type. -/
def checkForeignKeyPair (cat : CatalogAccessor) (tableOid : Oid)
    (cols : List ColumnDefinition) (src sink : String) : Option BindError :=
  let refCol := (cat.GetSchema tableOid).GetColumnNamed sink
  if refCol.oid = INVALID_COLUMN_OID then
    some ⟨.NotFound, "Foreign key referencing non-existing column"⟩
  else
    match fkFindSourceColumn cols src with
    | some col =>
      if refCol.type != col.valueType then
        some ⟨.TypeMismatch,
          "Foreign key source column " ++ src ++ "type does not match reference column type"⟩
      else none
    | none => some ⟨.NotFound, "Cannot find column " ++ src ++ " in foreign key source"⟩

/-- Embedding of the pair loop (lines 233-253), first error aborting. -/
def checkForeignKeyPairs (cat : CatalogAccessor) (tableOid : Oid)
    (cols : List ColumnDefinition) : List (String × String) → Option BindError
  | [] => none
  | (src, sink) :: rest =>
    match checkForeignKeyPair cat tableOid cols src sink with
    | some e => some e
    | none => checkForeignKeyPairs cat tableOid cols rest

/-- Embedding of the per-foreign-key validation (lines 218-254): first
the sink table is resolved, then the source and sink column lists are
required equal in length, then each pair is checked in order. -/
def checkForeignKey (cat : CatalogAccessor) (cols : List ColumnDefinition)
    (fk : ForeignKeyDefinition) : Option BindError :=
  let tableOid := cat.GetTableOid fk.sinkTableName
  if tableOid = INVALID_TABLE_OID then
    some ⟨.NotFound, "Foreign key referencing non-existing table"⟩
  else if fk.sources.length ≠ fk.sinks.length then
    some ⟨.ArityMismatch,
      "Number of columns in foreign key does not match number of reference columns"⟩
  else checkForeignKeyPairs cat tableOid cols (fk.sources.zip fk.sinks)

/-- Embedding of the foreign-keys loop (lines 218-254). -/
def checkForeignKeys (cat : CatalogAccessor) (cols : List ColumnDefinition) :
    List ForeignKeyDefinition → Option BindError
  | [] => none
  | fk :: rest =>
    match checkForeignKey cat cols fk with
    | some e => some e
    | none => checkForeignKeys cat cols rest

/-! ## DROP binding (lines 386-420) -/

/-- Embedding of BindNodeVisitor::Visit(parser::DropStatement*) (lines
386-420).  A frame is pushed on entry; database, table and index drops
check existence in the catalog and throw a not-found error otherwise,
while trigger, schema, view and prepared-statement drops perform no
check; on the error paths the exception propagates before the frame is
released, so the returned stack still holds the pushed frame, and on
success the frame is popped back to the entry stack. -/
def dropVisit (cat : CatalogAccessor) (ddb : String) (node : DropStatement)
    (st : ContextStack) : Option BindError × DropStatement × ContextStack :=
  let st1 := BinderContext.empty :: st
  match node.dropType with
  | .kDatabase =>
    if cat.GetDatabaseOid node.databaseName = INVALID_DATABASE_OID then
      (some ⟨.NotFound, "Database does not exist"⟩, node, st1)
    else (none, node, st)
  | .kTable =>
    let node' := node.tryBindDatabaseName ddb
    if cat.GetTableOid node'.tableName = INVALID_TABLE_OID then
      (some ⟨.NotFound, "Table does not exist"⟩, node', st1)
    else (none, node', st)
  | .kIndex =>
    let node' := node.tryBindDatabaseName ddb
    if cat.GetIndexOid node'.indexName = INVALID_INDEX_OID then
      (some ⟨.NotFound, "Index does not exist"⟩, node', st1)
    else (none, node', st)
  | .kTrigger => (none, node, st)
  | .kSchema => (none, node, st)
  | .kView => (none, node, st)
  | .kPreparedStatement => (none, node, st)

end Terrier

namespace Terrier

/-! ## Binder state and result

The visitor methods mutate two binder members: context_ (the frame
chain) and, through interning, the parse-result container.  A result
records the returned value on success, or the thrown error together
with the member state at the throw point, which is exactly what a C++
caller observes after the exception propagates.  The parse-result
value recorded at a throw from inside the INSERT values loop is the
value at loop entry; no verified claim reads the parse result of a
failed binding. -/

/-- Mutable binder state: the context_ frame chain and the parse-result
container of interned expressions. -/
structure BinderSt where
  context : ContextStack
  parseResult : List AbstractExpression

/-- Result of a visitor call: normal return or thrown binder error,
each with the binder state left behind. -/
inductive BRes (α : Type) where
  | ok (a : α) (s : BinderSt)
  | err (e : BindError) (s : BinderSt)

/-- Error component of a result. -/
def resError {α : Type} : BRes α → Option BindError
  | .ok _ _ => none
  | .err e _ => some e

/-- State component of a result. -/
def resState {α : Type} : BRes α → BinderSt
  | .ok _ s => s
  | .err _ s => s

/-- Sequencing of visitor calls: an error short-circuits, exactly as a
C++ exception propagates past the remaining statements. -/
def bindBRes {α β : Type} (r : BRes α) (f : α → BinderSt → BRes β) : BRes β :=
  match r with
  | .ok a s => f a s
  | .err e s => .err e s

/-- Fuel-exhaustion error of the embedded traversal; it never arises in
any theorem below, which all either supply sufficient fuel or assume a
successful sub-run. -/
def fuelErr : BindError := ⟨.Internal, "Traversal fuel exhausted"⟩

/-- Modelled from the spec: BinderContext::GenerateAllColumnExpressions,
the star expansion (spec section 4.1): the ordered projection of every
column of every regular table of the current frame, insertion order of
tables then schema order of columns; the generated expressions are
interned into the parse result. -/
def generateAllColumnExpressions (st : ContextStack) (pr : List AbstractExpression) :
    List AbstractExpression × List AbstractExpression :=
  match st with
  | [] => ([], pr)
  | f :: _ =>
    let exprs := (f.regularTables.map (fun t =>
      t.schema.columns.map (fun c =>
        AbstractExpression.columnValue
          ⟨t.tableAlias, c.name, t.dbOid, t.tableOid, c.oid, c.type⟩))).flatten
    (exprs, pr ++ exprs)

/-- Modelled from the spec: the alias a single named table is stored
under, the explicit alias when present, defaulting to the table name. -/
def TableRef.effectiveAlias (node : TableRef) : String :=
  if node.refAlias = "" then node.tableName else node.refAlias

/-- Update of the subselect field of a TableRef. -/
def TableRef.withSelect : TableRef → SelectStatement → TableRef
  | .mk d n t a _ j l, sel => .mk d n t a (some sel) j l

/-- Update of the join field of a TableRef. -/
def TableRef.withJoin : TableRef → JoinDefinition → TableRef
  | .mk d n t a s _ l, j => .mk d n t a s (some j) l

/-- Update of the comma-list field of a TableRef. -/
def TableRef.withList : TableRef → List TableRef → TableRef
  | .mk d n t a s j _, l => .mk d n t a s j l

/-! ## The visitor family

One mutually recursive family embeds the traversal of
bind_node_visitor.cpp.  A fuel argument makes the recursion
structural; every recursive call runs at the predecessor fuel, and
running out of fuel yields the Internal error that no theorem relies
on.  Expression annotation passes (DeriveDepth, DeriveSubqueryFlag,
DeriveReturnValueType, DeriveExpressionName, whose implementations are
not among the sources here) are modelled from the spec as the
identity on the already-annotated nodes of this embedding; no verified
claim concerns the annotations they compute. -/

mutual

/-- Embedding of expression Accept dispatch: the expression Visit
overloads of bind_node_visitor.cpp lines 438-513 together with the
child-forwarding default of SqlNodeVisitor for operators and
aggregates.  Constant and cast visits are no-ops (lines 438-448); the
star visit requires a current frame with tables (lines 495-501); the
column-value visit is columnValueVisit; a subquery binds its
subselect (lines 490-493); a case expression visits its when
conditions (lines 483-488). -/
def exprVisit (cat : CatalogAccessor) (ddb : String) :
    Nat → AbstractExpression → BinderSt → BRes AbstractExpression
  | 0, _, s => .err fuelErr s
  | _ + 1, .constant t v, s => .ok (.constant t v) s
  | _ + 1, .typeCast t cs, s => .ok (.typeCast t cs) s
  | _ + 1, .columnValue cv, s =>
    match columnValueVisit s.context cv with
    | .ok cv' => .ok (.columnValue cv') s
    | .error e => .err e s
  | _ + 1, .star, s =>
    if hasTables s.context then .ok .star s
    else .err ⟨.InvalidStar, "Invalid [Expression :: STAR]."⟩ s
  | fuel + 1, .operatorExpr t cs, s =>
    bindBRes (exprListVisit cat ddb fuel cs s) (fun cs' s' => .ok (.operatorExpr t cs') s')
  | fuel + 1, .aggregate t cs, s =>
    bindBRes (exprListVisit cat ddb fuel cs s) (fun cs' s' => .ok (.aggregate t cs') s')
  | fuel + 1, .caseExpr ws, s =>
    bindBRes (exprListVisit cat ddb fuel ws s) (fun ws' s' => .ok (.caseExpr ws') s')
  | fuel + 1, .subquery sub, s =>
    bindBRes (selectVisit cat ddb fuel sub s) (fun sub' s' => .ok (.subquery sub') s')

/-- Sequential visit of a list of expressions, first error aborting. -/
def exprListVisit (cat : CatalogAccessor) (ddb : String) :
    Nat → List AbstractExpression → BinderSt → BRes (List AbstractExpression)
  | 0, _, s => .err fuelErr s
  | _ + 1, [], s => .ok [] s
  | fuel + 1, e :: rest, s =>
    bindBRes (exprVisit cat ddb fuel e s) (fun e' s' =>
    bindBRes (exprListVisit cat ddb fuel rest s') (fun rest' s'' => .ok (e' :: rest') s''))

/-- Visit of an optional expression (a null child is skipped). -/
def optExprVisit (cat : CatalogAccessor) (ddb : String) :
    Nat → Option AbstractExpression → BinderSt → BRes (Option AbstractExpression)
  | 0, _, s => .err fuelErr s
  | _ + 1, none, s => .ok none s
  | fuel + 1, some e, s =>
    bindBRes (exprVisit cat ddb fuel e s) (fun e' s' => .ok (some e') s')

/-- Visit of an optional expression list (ORDER BY, lines 132-136). -/
def optExprListVisit (cat : CatalogAccessor) (ddb : String) :
    Nat → Option (List AbstractExpression) → BinderSt → BRes (Option (List AbstractExpression))
  | 0, _, s => .err fuelErr s
  | _ + 1, none, s => .ok none s
  | fuel + 1, some es, s =>
    bindBRes (exprListVisit cat ddb fuel es s) (fun es' s' => .ok (some es') s')

/-- Visit of an optional GROUP BY description: its columns then its
HAVING clause (lines 126-130). -/
def optGroupByVisit (cat : CatalogAccessor) (ddb : String) :
    Nat → Option (List AbstractExpression × Option AbstractExpression) → BinderSt →
    BRes (Option (List AbstractExpression × Option AbstractExpression))
  | 0, _, s => .err fuelErr s
  | _ + 1, none, s => .ok none s
  | fuel + 1, some (cols, having), s =>
    bindBRes (exprListVisit cat ddb fuel cols s) (fun cols' s' =>
    bindBRes (optExprVisit cat ddb fuel having s') (fun having' s'' =>
      .ok (some (cols', having')) s''))

/-- Visit of an optional FROM table. -/
def optTableRefVisit (cat : CatalogAccessor) (ddb : String) :
    Nat → Option TableRef → BinderSt → BRes (Option TableRef)
  | 0, _, s => .err fuelErr s
  | _ + 1, none, s => .ok none s
  | fuel + 1, some tr, s =>
    bindBRes (tableRefVisit cat ddb fuel tr s) (fun tr' s' => .ok (some tr') s')

/-- Embedding of the select-list loop of Visit(SelectStatement) (lines
60-81): a star item is replaced in place by the generated projection
of the current frame (the generated expressions being interned), any
other item is visited and annotated. -/
def selectColumnsVisit (cat : CatalogAccessor) (ddb : String) :
    Nat → List AbstractExpression → BinderSt → BRes (List AbstractExpression)
  | 0, _, s => .err fuelErr s
  | _ + 1, [], s => .ok [] s
  | fuel + 1, .star :: rest, s =>
    let g := generateAllColumnExpressions s.context s.parseResult
    bindBRes (selectColumnsVisit cat ddb fuel rest { s with parseResult := g.2 })
      (fun rest' s' => .ok (g.1 ++ rest') s')
  | fuel + 1, e :: rest, s =>
    bindBRes (exprVisit cat ddb fuel e s) (fun e' s' =>
    bindBRes (selectColumnsVisit cat ddb fuel rest s') (fun rest' s'' => .ok (e' :: rest') s''))

/-- Embedding of BindNodeVisitor::Visit(parser::SelectStatement*)
(lines 43-87): push a frame whose parent is the current one, bind FROM
then WHERE then ORDER BY then LIMIT (a no-op) then GROUP BY, expand
the select list, set the statement depth to the frame depth, pop the
frame.  On an error the exception propagates before the pop, leaving
the pushed frame on the stack. -/
def selectVisit (cat : CatalogAccessor) (ddb : String) :
    Nat → SelectStatement → BinderSt → BRes SelectStatement
  | 0, _, s => .err fuelErr s
  | fuel + 1, .mk table cond orderBy limit groupBy cols _, s =>
    let s1 : BinderSt := { s with context := BinderContext.empty :: s.context }
    bindBRes (optTableRefVisit cat ddb fuel table s1) (fun table' s2 =>
    bindBRes (optExprVisit cat ddb fuel cond s2) (fun cond' s3 =>
    bindBRes (optExprListVisit cat ddb fuel orderBy s3) (fun orderBy' s4 =>
    bindBRes (optGroupByVisit cat ddb fuel groupBy s4) (fun groupBy' s5 =>
    bindBRes (selectColumnsVisit cat ddb fuel cols s5) (fun cols' s6 =>
      .ok (.mk table' cond' orderBy' limit groupBy' cols' ((s6.context.length : Int) - 1))
        { s6 with context := s6.context.drop 1 })))))

/-- Embedding of BindNodeVisitor::Visit(parser::JoinDefinition*) (lines
90-96): left table, right table, then the join condition. -/
def joinVisit (cat : CatalogAccessor) (ddb : String) :
    Nat → JoinDefinition → BinderSt → BRes JoinDefinition
  | 0, _, s => .err fuelErr s
  | fuel + 1, .mk l r c, s =>
    bindBRes (tableRefVisit cat ddb fuel l s) (fun l' s1 =>
    bindBRes (tableRefVisit cat ddb fuel r s1) (fun r' s2 =>
    bindBRes (exprVisit cat ddb fuel c s2) (fun c' s3 => .ok (.mk l' r' c') s3)))

/-- Sequential visit of a comma list of table references. -/
def tableRefListVisit (cat : CatalogAccessor) (ddb : String) :
    Nat → List TableRef → BinderSt → BRes (List TableRef)
  | 0, _, s => .err fuelErr s
  | _ + 1, [], s => .ok [] s
  | fuel + 1, tr :: rest, s =>
    bindBRes (tableRefVisit cat ddb fuel tr s) (fun tr' s' =>
    bindBRes (tableRefListVisit cat ddb fuel rest s') (fun rest' s'' => .ok (tr' :: rest') s''))

/-- Embedding of BindNodeVisitor::Visit(parser::TableRef*) (lines
98-124).  The database name is defaulted first; then the four subcases
in the fixed dispatch order: a query-derived table (alias mandatory,
the enclosing frame saved, the subselect bound, the enclosing frame
restored, a nested binding for the alias installed there), a join, a
comma list, and a single named table (catalog existence check, then a
regular binding). -/
def tableRefVisit (cat : CatalogAccessor) (ddb : String) :
    Nat → TableRef → BinderSt → BRes TableRef
  | 0, _, s => .err fuelErr s
  | fuel + 1, node0, s =>
    let node := node0.tryBindDatabaseName ddb
    match node.select with
    | some sel =>
      if node.refAlias = "" then
        .err ⟨.MissingAlias, "Alias not found for query derived table"⟩ s
      else
        bindBRes (selectVisit cat ddb fuel sel s) (fun sel' s' =>
          .ok (node.withSelect sel')
            { s' with context :=
                addNestedTable node.refAlias (nestedColumns sel'.columns) s.context })
    | none =>
      match node.join with
      | some j =>
        bindBRes (joinVisit cat ddb fuel j s) (fun j' s' => .ok (node.withJoin j') s')
      | none =>
        match node.list with
        | _ :: _ =>
          bindBRes (tableRefListVisit cat ddb fuel node.list s)
            (fun l' s' => .ok (node.withList l') s')
        | [] =>
          if cat.GetTableOid node.tableName = INVALID_TABLE_OID then
            .err ⟨.NotFound, "Accessing non-existing table."⟩ s
          else
            .ok node
              { s with context :=
                  addRegularTable cat node.dbName node.tableName node.effectiveAlias s.context }

/-- Embedding of BindNodeVisitor::Visit(parser::InsertStatement*)
(lines 305-384): a parentless frame replaces the context, the
insertion table is defaulted and installed as a regular binding; an
embedded SELECT is bound, otherwise the VALUES form is validated
(insert columns exist, per-row arity, per-cell type coercion with
interning of synthesized expressions); on success the frame is
released.  On an error the exception propagates before the release,
leaving the parentless frame as the context. -/
def insertVisit (cat : CatalogAccessor) (ddb : String) :
    Nat → InsertStatement → BinderSt → BRes InsertStatement
  | 0, _, s => .err fuelErr s
  | fuel + 1, node, s =>
    let table := node.table.tryBindDatabaseName ddb
    let s2 : BinderSt :=
      { s with context :=
          (addRegularTable cat table.dbName table.tableName table.tableName
            [BinderContext.empty]) }
    match node.select with
    | some sel =>
      bindBRes (selectVisit cat ddb fuel sel s2) (fun sel' s3 =>
        .ok { node with table := table, select := some sel' } { s3 with context := [] })
    | none =>
      match getTableMapping s2.context table.tableName with
      | none => .err ⟨.Internal, "Missing table mapping"⟩ s2
      | some binderTableData =>
        let tableSchema := binderTableData.schema
        match checkInsertColumns tableSchema node.insertColumns with
        | some e => .err e s2
        | none =>
          match processInsertRows tableSchema node.insertColumns.length
              s2.parseResult node.values with
          | .error e => .err e s2
          | .ok (values', pr') =>
            .ok { node with table := table, values := values' }
              { context := [], parseResult := pr' }

/-- Visit of the DEFAULT and CHECK expressions of the declared columns
of a CREATE TABLE (lines 214-217). -/
def columnDefsVisit (cat : CatalogAccessor) (ddb : String) :
    Nat → List ColumnDefinition → BinderSt → BRes (List ColumnDefinition)
  | 0, _, s => .err fuelErr s
  | _ + 1, [], s => .ok [] s
  | fuel + 1, c :: rest, s =>
    bindBRes (optExprVisit cat ddb fuel c.defaultExpression s) (fun d' s1 =>
    bindBRes (optExprVisit cat ddb fuel c.checkExpression s1) (fun k' s2 =>
    bindBRes (columnDefsVisit cat ddb fuel rest s2) (fun rest' s3 =>
      .ok ({ c with defaultExpression := d', checkExpression := k' } :: rest') s3)))

/-- Visit of the attributes of a CREATE INDEX (lines 267-277): an
expression attribute is bound, a bare column name must exist in the
base table's schema. -/
def indexAttrsVisit (cat : CatalogAccessor) (ddb : String) :
    Nat → String → List IndexAttribute → BinderSt → BRes (List IndexAttribute)
  | 0, _, _, s => .err fuelErr s
  | _ + 1, _, [], s => .ok [] s
  | fuel + 1, tname, .expr e :: rest, s =>
    bindBRes (exprVisit cat ddb fuel e s) (fun e' s1 =>
    bindBRes (indexAttrsVisit cat ddb fuel tname rest s1) (fun rest' s2 =>
      .ok (.expr e' :: rest') s2))
  | fuel + 1, tname, .name n :: rest, s =>
    let tbOid := cat.GetTableOid tname
    if BinderContext.ColumnInSchema (cat.GetSchema tbOid) n then
      bindBRes (indexAttrsVisit cat ddb fuel tname rest s) (fun rest' s1 =>
        .ok (.name n :: rest') s1)
    else
      .err ⟨.NotFound, "No such column specified by the index attribute " ++ n⟩ s

/-- Embedding of BindNodeVisitor::Visit(parser::CreateStatement*)
(lines 197-303): a frame is pushed, the create-type cases run their
checks and bindings, and on success the frame is popped; an error
propagates before the pop. -/
def createVisit (cat : CatalogAccessor) (ddb : String) :
    Nat → CreateStatement → BinderSt → BRes CreateStatement
  | 0, _, s => .err fuelErr s
  | fuel + 1, node0, s =>
    let s1 : BinderSt := { s with context := BinderContext.empty :: s.context }
    match node0.createType with
    | .kDatabase =>
      if cat.GetDatabaseOid node0.databaseName ≠ INVALID_DATABASE_OID then
        .err ⟨.AlreadyExists, "Database name already exists"⟩ s1
      else .ok node0 { s1 with context := s1.context.drop 1 }
    | .kTable =>
      let node := node0.tryBindDatabaseName ddb
      if cat.GetTableOid node.tableName ≠ INVALID_TABLE_OID then
        .err ⟨.AlreadyExists, "Table name already exists"⟩ s1
      else
        let s2 : BinderSt :=
          { s1 with context :=
              (addNewTable node.tableName (node.columns.map (fun c => (c.name, c.valueType)))
                s1.context) }
        bindBRes (columnDefsVisit cat ddb fuel node.columns s2) (fun cols' s3 =>
          match checkForeignKeys cat cols' node.foreignKeys with
          | some e => .err e s3
          | none =>
            .ok { node with columns := cols' } { s3 with context := s3.context.drop 1 })
    | .kIndex =>
      if cat.GetTableOid node0.tableName = INVALID_TABLE_OID then
        .err ⟨.NotFound, "Build index on non-existing table."⟩ s1
      else if cat.GetIndexOid node0.indexName ≠ INVALID_INDEX_OID then
        .err ⟨.AlreadyExists, "This index already exists."⟩ s1
      else
        let node := node0.tryBindDatabaseName ddb
        let s2 : BinderSt :=
          { s1 with context :=
              addRegularTable cat node.databaseName node.tableName node.tableName s1.context }
        bindBRes (indexAttrsVisit cat ddb fuel node.tableName node.indexAttributes s2)
          (fun attrs' s3 =>
            .ok { node with indexAttributes := attrs' } { s3 with context := s3.context.drop 1 })
    | .kTrigger =>
      let node := node0.tryBindDatabaseName ddb
      let st :=
        addRegularTable cat node.databaseName node.tableName "new"
          (addRegularTable cat node.databaseName node.tableName "old"
            (addRegularTable cat node.databaseName node.tableName node.tableName s1.context))
      bindBRes (optExprVisit cat ddb fuel node.triggerWhen { s1 with context := st })
        (fun w' s2 =>
          .ok { node with triggerWhen := w' } { s2 with context := s2.context.drop 1 })
    | .kSchema => .ok node0 { s1 with context := s1.context.drop 1 }
    | .kView =>
      let node := node0.tryBindDatabaseName ddb
      match node.viewQuery with
      | some q =>
        bindBRes (selectVisit cat ddb fuel q s1) (fun q' s2 =>
          .ok { node with viewQuery := some q' } { s2 with context := s2.context.drop 1 })
      | none => .err ⟨.Internal, "View requires a query"⟩ s1

end

end Terrier

namespace Terrier

/-! ## Normalized resolution outcomes -/

/-- Resolution outcome of a column-value visit with the stored display
spellings erased: the resolved (db, table, column, type) on success
(display names keep their original case by design), or the error kind
on failure (error messages embed identifier spellings). -/
def normalizeResolution : Except BindError ColumnValueExpression →
    Sum (Oid × Oid × Oid × TypeId) BindErrorKind
  | .ok e => .inl (e.databaseOid, e.tableOid, e.columnOid, e.retType)
  | .error e => .inr e.kind

/-- Frames with every nested (subselect) binding erased, used to state
that a resolution that finds a regular binding never consults the
nested bindings. -/
def stripNested (st : ContextStack) : ContextStack :=
  st.map (fun f => { f with nestedTables := [] })

/-! ## Concrete instances for witnesses and counterexamples -/

/-- Single named table reference with no alias. -/
def tref (t : String) : TableRef := .mk "" "" t "" none none []

/-- Catalog with database d and table users(id INT). -/
def catC1 : CatalogAccessor :=
  ⟨[("d", 1)], [("users", 2)], [], [(2, ⟨[⟨"id", 1, .Integer⟩]⟩)]⟩

/-- Statement INSERT INTO users VALUES (1, 2), one value too many for
the single-column schema. -/
def stmtC1 : InsertStatement :=
  ⟨tref "users", [], none, [[.constant .Integer (.intV 1), .constant .Integer (.intV 2)]]⟩

/-- Catalog with database d and table t(a INT, b VARCHAR). -/
def catC5 : CatalogAccessor :=
  ⟨[("d", 1)], [("t", 3)], [], [(3, ⟨[⟨"a", 1, .Integer⟩, ⟨"b", 2, .Varchar⟩]⟩)]⟩

/-- Schema of table t in catC5. -/
def schemaT : Schema := ⟨[⟨"a", 1, .Integer⟩, ⟨"b", 2, .Varchar⟩]⟩

/-- The single value cell of stmtC5: the string literal of type
VARCHAR. -/
def cellC5 : AbstractExpression := .constant .Varchar (.strV "x")

/-- Statement INSERT INTO t(b) VALUES ('x'): the cell inserts into
column b of type VARCHAR and its type matches. -/
def stmtC5 : InsertStatement := ⟨tref "t", ["b"], none, [[cellC5]]⟩

/-- Frame stack holding the single regular binding of users(id INT),
the scope of scenario S2 of the spec. -/
def framesUsers : ContextStack :=
  [⟨[⟨"users", 1, 2, ⟨[⟨"id", 1, .Integer⟩]⟩⟩], [], []⟩]

/-- Catalog with only table u(b INT) under oid 2. -/
def catU : CatalogAccessor := ⟨[], [("u", 2)], [], [(2, ⟨[⟨"b", 5, .Integer⟩]⟩)]⟩

/-- Catalog with only table u(b TEXT) under oid 2, the catalog of spec
scenario S7. -/
def catU7 : CatalogAccessor := ⟨[], [("u", 2)], [], [(2, ⟨[⟨"b", 5, .Varchar⟩]⟩)]⟩

/-- Declared columns of CREATE TABLE t(a INT, ...), scenario S7. -/
def colsS7 : List ColumnDefinition := [⟨"a", .Integer, none, none⟩]

/-- Declared columns differing from colsS7 only in the case of the
column name. -/
def colsS7upper : List ColumnDefinition := [⟨"A", .Integer, none, none⟩]

/-- Foreign key clause FOREIGN KEY (a) REFERENCES u(b). -/
def fkS7 : ForeignKeyDefinition := ⟨["a"], ["b"], "u"⟩

/-- Empty catalog. -/
def catEmpty : CatalogAccessor := ⟨[], [], [], []⟩

/-- Subselect SELECT 1 (a single constant select item, no FROM). -/
def selW : SelectStatement := .mk none none none false none [.constant .Integer (.intV 1)] 0

/-- The subselect after binding at depth 1. -/
def selW' : SelectStatement := .mk none none none false none [.constant .Integer (.intV 1)] 1

/-- Derived table (SELECT 1) AS sub. -/
def nodeW : TableRef := .mk "" "" "" "sub" (some selW) none []

end Terrier

namespace Terrier

/-! ## Helper lemmas -/

theorem tryBindDatabaseName_select (ddb : String) (node : TableRef) :
    (node.tryBindDatabaseName ddb).select = node.select := by
  cases node
  rfl

theorem tryBindDatabaseName_refAlias (ddb : String) (node : TableRef) :
    (node.tryBindDatabaseName ddb).refAlias = node.refAlias := by
  cases node
  rfl

theorem setColumnPosTuple_cons_empty {f : BinderContext} {col : String}
    (h : frameMatches f col = []) (rest : ContextStack) :
    setColumnPosTuple (f :: rest) col = setColumnPosTuple rest col := by
  simp only [setColumnPosTuple, h]

theorem setColumnPosTuple_cons_single {f : BinderContext} {col : String}
    {t : RegularTableBinding} (h : frameMatches f col = [t]) (rest : ContextStack) :
    setColumnPosTuple (f :: rest) col = .ok (some t) := by
  simp only [setColumnPosTuple, h]

theorem setColumnPosTuple_cons_multi {f : BinderContext} {col : String}
    {t1 t2 : RegularTableBinding} {ts : List RegularTableBinding}
    (h : frameMatches f col = t1 :: t2 :: ts) (rest : ContextStack) :
    setColumnPosTuple (f :: rest) col =
      .error ⟨.AmbiguousReference, "Ambiguous column name " ++ col⟩ := by
  simp only [setColumnPosTuple, h]

theorem setColumnPosTuple_none_of_all (st : ContextStack) (col : String)
    (h : ∀ f ∈ st, frameMatches f col = []) :
    setColumnPosTuple st col = .ok none := by
  induction st with
  | nil => rfl
  | cons f rest ih =>
    rw [setColumnPosTuple_cons_empty (h f (List.mem_cons_self f rest)) rest]
    exact ih (fun g hg => h g (List.mem_cons_of_mem f hg))

theorem columnValueVisit_unqualified (st : ContextStack) (expr : ColumnValueExpression)
    (h0 : expr.tableOid = INVALID_TABLE_OID) (h1 : strLower expr.tableName = "") :
    columnValueVisit st expr =
      (match setColumnPosTuple st (strLower expr.columnName) with
       | .error e => .error e
       | .ok none => .error ⟨.NotFound, "Cannot find column " ++ strLower expr.columnName⟩
       | .ok (some t) =>
         .ok (applyTableBinding (strLower expr.columnName) t.dbOid t.tableOid t.schema expr)) := by
  unfold columnValueVisit
  rw [h0, h1]
  simp

theorem columnValueVisit_qualified (st : ContextStack) (expr : ColumnValueExpression)
    (h0 : expr.tableOid = INVALID_TABLE_OID) (h1 : strLower expr.tableName ≠ "") :
    columnValueVisit st expr =
      (match getRegularTableObj st (strLower expr.tableName) with
       | some t =>
         if BinderContext.ColumnInSchema t.schema (strLower expr.columnName) then
           .ok (applyTableBinding (strLower expr.columnName) t.dbOid t.tableOid t.schema expr)
         else .error ⟨.NotFound, "Cannot find column " ++ strLower expr.columnName⟩
       | none =>
         match checkNestedTableColumn st (strLower expr.tableName) (strLower expr.columnName) with
         | .error e => .error e
         | .ok none => .error ⟨.InvalidReference, "Invalid table reference " ++ expr.tableName⟩
         | .ok (some c) => .ok (applyNestedBinding c expr)) := by
  unfold columnValueVisit
  rw [h0]
  simp [h1]

theorem getRegularTableObj_stripNested (st : ContextStack) (a : String) :
    getRegularTableObj (stripNested st) a = getRegularTableObj st a := by
  induction st with
  | nil => rfl
  | cons f rest ih =>
    simp only [stripNested, List.map_cons] at ih ⊢
    cases h : f.regularTables.find? (fun b => strLower b.tableAlias = a) <;>
      simp [getRegularTableObj, h, ih]

/-! ## Claim theorems -/

/-- Claim C1 (code bug shown by evaluation): binding the statement
INSERT INTO users VALUES (1, 2) against catalog users(id INT) from an
empty frame stack fails with the arity-mismatch binder error, yet the
frame allocated at entry (holding the users binding) is still the
binder context when the error reaches the caller: the throw at the
arity check propagates past the context release at the end of
Visit(InsertStatement), so the frame stack is not restored to its
(empty) entry state, contradicting the no-residual-frames guarantee. -/
theorem insert_bind_failure_leaves_frame :
    resError (insertVisit catC1 "d" 4 stmtC1 ⟨[], []⟩) =
      some ⟨.ArityMismatch, "Mismatch in number of insert columns and number of insert values."⟩ ∧
    (resState (insertVisit catC1 "d" 4 stmtC1 ⟨[], []⟩)).context ≠ [] := by
  constructor
  · rfl
  · have hst : (resState (insertVisit catC1 "d" 4 stmtC1 ⟨[], []⟩)).context =
        [⟨[⟨"users", 1, 2, ⟨[⟨"id", 1, .Integer⟩]⟩⟩], [], []⟩] := rfl
    rw [hst]
    exact List.cons_ne_nil _ _

/-- Claim C2: unqualified column resolution searches frames innermost
to outermost, skipping frames none of whose regular tables contain the
column (so an inner match shadows any outer one); within a frame the
regular tables are iterated in insertion order and a unique containing
table wins, two containing tables in the same frame being an ambiguity
error; and when no frame contains the column the visit fails with the
not-found error naming the (lowercased) column.  The frame search
itself (BinderContext::SetColumnPosTuple) is modelled from the spec;
the dispatch around it is the source of Visit(ColumnValueExpression). -/
theorem unqualified_column_resolution (st : ContextStack) (expr : ColumnValueExpression)
    (h0 : expr.tableOid = INVALID_TABLE_OID) (h1 : expr.tableName = "") :
    ((∀ f ∈ st, frameMatches f (strLower expr.columnName) = []) →
      columnValueVisit st expr =
        .error ⟨.NotFound, "Cannot find column " ++ strLower expr.columnName⟩) ∧
    (∀ f rest, st = f :: rest → frameMatches f (strLower expr.columnName) = [] →
      columnValueVisit st expr = columnValueVisit rest expr) ∧
    (∀ f rest t, st = f :: rest → frameMatches f (strLower expr.columnName) = [t] →
      columnValueVisit st expr =
        .ok (applyTableBinding (strLower expr.columnName) t.dbOid t.tableOid t.schema expr)) ∧
    (∀ f rest t1 t2 ts, st = f :: rest →
      frameMatches f (strLower expr.columnName) = t1 :: t2 :: ts →
      columnValueVisit st expr =
        .error ⟨.AmbiguousReference, "Ambiguous column name " ++ strLower expr.columnName⟩) := by
  have h1' : strLower expr.tableName = "" := by
    rw [h1]
    rfl
  refine ⟨?_, ?_, ?_, ?_⟩
  · intro h
    rw [columnValueVisit_unqualified st expr h0 h1', setColumnPosTuple_none_of_all st _ h]
  · intro f rest hst hf
    subst hst
    rw [columnValueVisit_unqualified _ expr h0 h1', columnValueVisit_unqualified rest expr h0 h1',
      setColumnPosTuple_cons_empty hf rest]
  · intro f rest t hst hf
    subst hst
    rw [columnValueVisit_unqualified _ expr h0 h1', setColumnPosTuple_cons_single hf rest]
  · intro f rest t1 t2 ts hst hf
    subst hst
    rw [columnValueVisit_unqualified _ expr h0 h1', setColumnPosTuple_cons_multi hf rest]

/-- Witness for C2 at spec scenario S2: SELECT x FROM users with
catalog users(id INT) fails with NotFound naming column x. -/
theorem unqualified_column_resolution_witness :
    columnValueVisit framesUsers ⟨"", "x", 0, 0, 0, .Invalid⟩ =
      .error ⟨.NotFound, "Cannot find column x"⟩ :=
  (unqualified_column_resolution framesUsers ⟨"", "x", 0, 0, 0, .Invalid⟩ rfl rfl).1 (by decide)

/-- Claim C4: the INSERT per-row column-count check rejects a row with
the arity-mismatch error exactly when the row arity differs from the
named-insert-column count (insert columns specified, their count
nonzero) or from the schema column count (no insert columns named);
rows with the matching arity pass the check and proceed to the cell
loop. -/
theorem insert_row_arity_check (ni ns nv : Nat) :
    ((checkInsertRowArity ni ns nv).isSome ↔ (ni ≠ 0 ∧ nv ≠ ni) ∨ (ni = 0 ∧ nv ≠ ns)) ∧
    (∀ e, checkInsertRowArity ni ns nv = some e →
      e = ⟨.ArityMismatch, "Mismatch in number of insert columns and number of insert values."⟩) ∧
    (∀ (tableSchema : Schema) (pr row : List AbstractExpression),
      tableSchema.columns.length = ns → row.length = nv →
      checkInsertRowArity ni ns nv = none →
      processInsertRow tableSchema ni pr row = processRowCells tableSchema 0 pr row) := by
  refine ⟨?_, ?_, ?_⟩
  · by_cases h1 : ni = 0 <;> by_cases h2 : nv = ni <;> by_cases h3 : nv = ns <;>
      simp [checkInsertRowArity, h1, h2, h3]
  · intro e h
    unfold checkInsertRowArity at h
    dsimp only at h
    split at h
    · injection h with h
      exact h.symm
    · exact absurd h (by simp)
  · intro tableSchema pr row hns hnv hnone
    unfold processInsertRow
    rw [hns, hnv, hnone]

/-- Witness for C4: an unnamed-columns insert row of two values against
a one-column schema is rejected. -/
theorem insert_row_arity_check_witness : (checkInsertRowArity 0 1 2).isSome :=
  (insert_row_arity_check 0 1 2).1.mpr (Or.inr ⟨rfl, by decide⟩)

/-- Claim C8: a DROP binding fails exactly when it drops a database,
table or index whose name does not resolve in the catalog, the error
being of the not-found kind; dropping a trigger, schema, view or
prepared statement performs no existence check and never fails. -/
theorem drop_existence_checks (cat : CatalogAccessor) (ddb : String)
    (node : DropStatement) (st : ContextStack) :
    ((dropVisit cat ddb node st).1.isSome ↔
      (node.dropType = .kDatabase ∧ cat.GetDatabaseOid node.databaseName = INVALID_DATABASE_OID) ∨
      (node.dropType = .kTable ∧ cat.GetTableOid node.tableName = INVALID_TABLE_OID) ∨
      (node.dropType = .kIndex ∧ cat.GetIndexOid node.indexName = INVALID_INDEX_OID)) ∧
    (∀ e, (dropVisit cat ddb node st).1 = some e → e.kind = .NotFound) := by
  obtain ⟨dt, dbn, tn, ixn⟩ := node
  constructor
  · cases dt
    case kDatabase =>
      by_cases h : cat.GetDatabaseOid dbn = INVALID_DATABASE_OID <;>
        simp [dropVisit, DropStatement.tryBindDatabaseName, h]
    case kTable =>
      by_cases h : cat.GetTableOid tn = INVALID_TABLE_OID <;>
        simp [dropVisit, DropStatement.tryBindDatabaseName, h]
    case kIndex =>
      by_cases h : cat.GetIndexOid ixn = INVALID_INDEX_OID <;>
        simp [dropVisit, DropStatement.tryBindDatabaseName, h]
    case kTrigger => simp [dropVisit]
    case kSchema => simp [dropVisit]
    case kView => simp [dropVisit]
    case kPreparedStatement => simp [dropVisit]
  · intro e he
    cases dt <;> simp only [dropVisit, DropStatement.tryBindDatabaseName] at he <;>
      first
      | (split at he <;> simp at he <;> (subst he; rfl))
      | simp at he

/-- Witness for C8: dropping the table t against an empty catalog
fails. -/
theorem drop_existence_checks_witness :
    ((dropVisit catEmpty "d" ⟨.kTable, "", "t", ""⟩ []).1).isSome :=
  (drop_existence_checks catEmpty "d" ⟨.kTable, "", "t", ""⟩ []).1.mpr
    (Or.inr (Or.inl ⟨rfl, rfl⟩))

/-- Claim C10: a ColumnValueExpression whose table oid is already a
valid (non-sentinel) value is skipped by the visit: no resolution is
attempted, no error can arise, and both the expression and the binder
state are left untouched (the column-value visit only ever reads the
frame stack). -/
theorem bound_column_value_noop (cat : CatalogAccessor) (ddb : String) (fuel : Nat)
    (s : BinderSt) (expr : ColumnValueExpression)
    (h : expr.tableOid ≠ INVALID_TABLE_OID) :
    columnValueVisit s.context expr = .ok expr ∧
    exprVisit cat ddb (fuel + 1) (.columnValue expr) s = .ok (.columnValue expr) s := by
  have h1 : columnValueVisit s.context expr = .ok expr := by
    unfold columnValueVisit
    simp [h]
  refine ⟨h1, ?_⟩
  simp [exprVisit, h1]

/-- Witness for C10: a column value with table oid 7 passes through the
visit unchanged. -/
theorem bound_column_value_noop_witness :
    columnValueVisit (⟨[], []⟩ : BinderSt).context ⟨"t", "c", 1, 7, 3, .Integer⟩ =
      .ok ⟨"t", "c", 1, 7, 3, .Integer⟩ ∧
    exprVisit catEmpty "d" 1 (.columnValue ⟨"t", "c", 1, 7, 3, .Integer⟩) ⟨[], []⟩ =
      .ok (.columnValue ⟨"t", "c", 1, 7, 3, .Integer⟩) ⟨[], []⟩ :=
  bound_column_value_noop catEmpty "d" 0 ⟨[], []⟩ ⟨"t", "c", 1, 7, 3, .Integer⟩ (by decide)

end Terrier

namespace Terrier

/-- Claim C3: qualified column resolution first looks for a regular
binding with the alias across all frames, innermost to outermost (a
current-frame hit winning immediately); when a regular binding matches
but its schema lacks the column the visit fails with the not-found
error; nested bindings are consulted only when the regular lookup
failed at every frame (erasing every nested binding changes nothing
when a regular binding matches); and when neither a regular nor a
nested binding matches the alias the visit fails with the
invalid-reference error naming the table.  The two context lookups
(GetRegularTableObj, CheckNestedTableColumn) are modelled from the
spec; the dispatch around them is the source of
Visit(ColumnValueExpression). -/
theorem qualified_column_resolution (st : ContextStack) (expr : ColumnValueExpression)
    (h0 : expr.tableOid = INVALID_TABLE_OID) (h1 : strLower expr.tableName ≠ "") :
    (∀ t, getRegularTableObj st (strLower expr.tableName) = some t →
      BinderContext.ColumnInSchema t.schema (strLower expr.columnName) = false →
      columnValueVisit st expr =
        .error ⟨.NotFound, "Cannot find column " ++ strLower expr.columnName⟩) ∧
    (∀ t, getRegularTableObj st (strLower expr.tableName) = some t →
      BinderContext.ColumnInSchema t.schema (strLower expr.columnName) = true →
      columnValueVisit st expr =
        .ok (applyTableBinding (strLower expr.columnName) t.dbOid t.tableOid t.schema expr)) ∧
    (getRegularTableObj st (strLower expr.tableName) = none →
      checkNestedTableColumn st (strLower expr.tableName) (strLower expr.columnName) =
        .ok none →
      columnValueVisit st expr =
        .error ⟨.InvalidReference, "Invalid table reference " ++ expr.tableName⟩) ∧
    (∀ t, getRegularTableObj st (strLower expr.tableName) = some t →
      columnValueVisit st expr = columnValueVisit (stripNested st) expr) ∧
    (∀ f rest t, st = f :: rest →
      f.regularTables.find? (fun b => strLower b.tableAlias = strLower expr.tableName) =
        some t →
      getRegularTableObj st (strLower expr.tableName) = some t) := by
  refine ⟨?_, ?_, ?_, ?_, ?_⟩
  · intro t hreg hcol
    rw [columnValueVisit_qualified st expr h0 h1, hreg]
    simp [hcol]
  · intro t hreg hcol
    rw [columnValueVisit_qualified st expr h0 h1, hreg]
    simp [hcol]
  · intro hreg hnested
    rw [columnValueVisit_qualified st expr h0 h1, hreg, hnested]
  · intro t hreg
    rw [columnValueVisit_qualified st expr h0 h1,
      columnValueVisit_qualified (stripNested st) expr h0 h1,
      getRegularTableObj_stripNested st _, hreg]
  · intro f rest t hst hf
    subst hst
    simp only [getRegularTableObj, hf]

/-- Witness for C3: a reference t.x against a single empty frame fails
with the invalid-reference error naming t. -/
theorem qualified_column_resolution_witness :
    columnValueVisit [BinderContext.empty] ⟨"t", "x", 0, 0, 0, .Invalid⟩ =
      .error ⟨.InvalidReference, "Invalid table reference t"⟩ :=
  (qualified_column_resolution [BinderContext.empty] ⟨"t", "x", 0, 0, 0, .Invalid⟩ rfl
    (by decide)).2.2.1 rfl rfl

/-- Claim C6: per foreign key of a CREATE TABLE, the sink table must
resolve in the catalog (otherwise the not-found error naming a
non-existing referenced table), then the source and sink column lists
must be equal in length (otherwise the arity-mismatch error), and then
each pair in order requires the sink column present in the sink
table's schema and the source column among the declared columns with
the sink column's value type (otherwise the not-found or type-mismatch
errors), in exactly that order. -/
theorem create_table_foreign_key_checks (cat : CatalogAccessor)
    (cols : List ColumnDefinition) (fk : ForeignKeyDefinition) :
    (cat.GetTableOid fk.sinkTableName = INVALID_TABLE_OID →
      checkForeignKey cat cols fk =
        some ⟨.NotFound, "Foreign key referencing non-existing table"⟩) ∧
    (cat.GetTableOid fk.sinkTableName ≠ INVALID_TABLE_OID →
      fk.sources.length ≠ fk.sinks.length →
      checkForeignKey cat cols fk =
        some ⟨.ArityMismatch,
          "Number of columns in foreign key does not match number of reference columns"⟩) ∧
    (cat.GetTableOid fk.sinkTableName ≠ INVALID_TABLE_OID →
      fk.sources.length = fk.sinks.length →
      checkForeignKey cat cols fk =
        checkForeignKeyPairs cat (cat.GetTableOid fk.sinkTableName) cols
          (fk.sources.zip fk.sinks)) ∧
    (∀ tOid src sink,
      ((cat.GetSchema tOid).GetColumnNamed sink).oid = INVALID_COLUMN_OID →
      checkForeignKeyPair cat tOid cols src sink =
        some ⟨.NotFound, "Foreign key referencing non-existing column"⟩) ∧
    (∀ tOid src sink c,
      ((cat.GetSchema tOid).GetColumnNamed sink).oid ≠ INVALID_COLUMN_OID →
      fkFindSourceColumn cols src = some c →
      ((cat.GetSchema tOid).GetColumnNamed sink).type ≠ c.valueType →
      checkForeignKeyPair cat tOid cols src sink =
        some ⟨.TypeMismatch,
          "Foreign key source column " ++ src ++ "type does not match reference column type"⟩) ∧
    (∀ tOid src sink,
      ((cat.GetSchema tOid).GetColumnNamed sink).oid ≠ INVALID_COLUMN_OID →
      fkFindSourceColumn cols src = none →
      checkForeignKeyPair cat tOid cols src sink =
        some ⟨.NotFound, "Cannot find column " ++ src ++ " in foreign key source"⟩) ∧
    (∀ tOid src sink c,
      ((cat.GetSchema tOid).GetColumnNamed sink).oid ≠ INVALID_COLUMN_OID →
      fkFindSourceColumn cols src = some c →
      ((cat.GetSchema tOid).GetColumnNamed sink).type = c.valueType →
      checkForeignKeyPair cat tOid cols src sink = none) := by
  refine ⟨?_, ?_, ?_, ?_, ?_, ?_, ?_⟩
  · intro h
    unfold checkForeignKey
    simp [h]
  · intro h1 h2
    unfold checkForeignKey
    simp [h1, h2]
  · intro h1 h2
    unfold checkForeignKey
    simp [h1, h2]
  · intro tOid src sink h
    unfold checkForeignKeyPair
    simp [h]
  · intro tOid src sink c h1 h2 h3
    unfold checkForeignKeyPair
    simp [h1, h2, bne_iff_ne, h3]
  · intro tOid src sink h1 h2
    unfold checkForeignKeyPair
    simp [h1, h2]
  · intro tOid src sink c h1 h2 h3
    unfold checkForeignKeyPair
    simp [h1, h2, h3]

/-- Witness for C6 at spec scenario S7: CREATE TABLE t(a INT, FOREIGN
KEY (a) REFERENCES u(b)) with catalog u(b TEXT) fails the foreign-key
check with the type-mismatch error. -/
theorem create_table_foreign_key_checks_witness :
    checkForeignKey catU7 colsS7 fkS7 =
      some ⟨.TypeMismatch,
        "Foreign key source column atype does not match reference column type"⟩ := by
  have h3 := (create_table_foreign_key_checks catU7 colsS7 fkS7).2.2.1 (by decide) rfl
  have h5 := (create_table_foreign_key_checks catU7 colsS7 fkS7).2.2.2.2.1
    (catU7.GetTableOid "u") "a" "b" ⟨"a", .Integer, none, none⟩ (by decide) rfl (by decide)
  rw [h3]
  show checkForeignKeyPairs catU7 (catU7.GetTableOid "u") colsS7 [("a", "b")] = _
  simp only [checkForeignKeyPairs]
  rw [h5]
  rfl

/-- Claim C5 counterexample: in INSERT INTO t(b) VALUES ('x') with
catalog t(a INT, b VARCHAR), the single value cell inserts into the
named column b, its return type VARCHAR equals the type of that
schema column and it is not a cast, so per the claim it is left
unchanged and no coercion error can arise for it; the code instead
coerces the cell against the schema column at the cell's index
(column a of type INT) and the binding fails with the type-mismatch
error. -/
theorem insert_value_coercion_counterexample :
    cellC5.GetReturnValueType = (schemaT.GetColumnNamed "b").type ∧
    cellC5.isCastExpression = false ∧
    resError (insertVisit catC5 "d" 4 stmtC5 ⟨[], []⟩) =
      some ⟨.TypeMismatch, "Value cannot be coerced to the target type"⟩ :=
  ⟨rfl, rfl, rfl⟩

/-- Claim C5 as amended: the target type of each value cell is the
type of the schema column at the cell's index position (schema order,
regardless of any named insert columns); a cell that is an explicit
cast or whose return type differs from that positional type is
replaced by the Value Coercion result and the synthesized expression
is interned into the parse-result container (coercion failure aborting
the binding), and any other cell is left unchanged. -/
theorem insert_value_coercion_positional (pr : List AbstractExpression)
    (tableSchema : Schema) (i : Nat) (expr : AbstractExpression) :
    (expr.isCastExpression = false →
      expr.GetReturnValueType = (tableSchema.GetColumnAt i).type →
      processValueCell pr tableSchema i expr = .ok (expr, pr)) ∧
    (∀ converted,
      (expr.isCastExpression = true ∨
        expr.GetReturnValueType ≠ (tableSchema.GetColumnAt i).type) →
      BinderUtil.Convert expr (tableSchema.GetColumnAt i).type = .ok converted →
      processValueCell pr tableSchema i expr = .ok (converted, pr ++ [converted])) ∧
    (∀ e,
      (expr.isCastExpression = true ∨
        expr.GetReturnValueType ≠ (tableSchema.GetColumnAt i).type) →
      BinderUtil.Convert expr (tableSchema.GetColumnAt i).type = .error e →
      processValueCell pr tableSchema i expr = .error e) := by
  refine ⟨?_, ?_, ?_⟩
  · intro hc ht
    unfold processValueCell
    simp [hc, ht]
  · intro converted hor hconv
    unfold processValueCell
    rcases hor with h | h
    · simp [h, hconv]
    · simp [h, hconv, bne_iff_ne]
  · intro e hor hconv
    unfold processValueCell
    rcases hor with h | h
    · simp [h, hconv]
    · simp [h, hconv, bne_iff_ne]

/-- Witness for amended C5: the string literal '5' at an INT-typed
first schema column is replaced by the integer literal 5 and interned. -/
theorem insert_value_coercion_positional_witness :
    processValueCell [] schemaT 0 (.constant .Varchar (.strV "5")) =
      .ok (.constant .Integer (.intV 5), [.constant .Integer (.intV 5)]) :=
  (insert_value_coercion_positional [] schemaT 0 (.constant .Varchar (.strV "5"))).2.1
    (.constant .Integer (.intV 5)) (Or.inr (by decide)) rfl

/-- Claim C9 counterexample: with catalog u(b INT), binding CREATE
TABLE t(A INT, FOREIGN KEY (a) REFERENCES u(b)) fails the foreign-key
source search (declared column A is not found for source name a),
whereas the same statement with the declared column spelled a
succeeds: the foreign-key source-column comparison distinguishes
identifiers differing only in case, so they do not bind to the same
object there. -/
theorem fk_source_case_sensitivity_counterexample :
    checkForeignKey catU colsS7upper fkS7 =
      some ⟨.NotFound, "Cannot find column a in foreign key source"⟩ ∧
    checkForeignKey catU colsS7 fkS7 = none :=
  ⟨rfl, rfl⟩

/-- Claim C9 as amended: column reference resolution (unqualified and
qualified) lowercases the stored table and column names before any
comparison, so two references whose names differ only in case resolve
to the same catalog object (same oid triple and type) or fail with the
same error kind; but the foreign-key source-column matching of CREATE
TABLE compares the declared column name with the source name exactly,
case-sensitively.  (The insert-column existence check sits in
BinderContext::ColumnInSchema, which is not among the sources here and
is modelled from the spec as case-insensitive.) -/
theorem case_insensitive_resolution_amended :
    (∀ (st : ContextStack) (t1 c1 t2 c2 : String) (dOid tOid cOid : Oid) (rt : TypeId),
      strLower t1 = strLower t2 → strLower c1 = strLower c2 →
      normalizeResolution (columnValueVisit st ⟨t1, c1, dOid, tOid, cOid, rt⟩) =
        normalizeResolution (columnValueVisit st ⟨t2, c2, dOid, tOid, cOid, rt⟩)) ∧
    (∀ (cols : List ColumnDefinition) (src : String) (c : ColumnDefinition),
      fkFindSourceColumn cols src = some c → c.name = src) ∧
    (∀ (cols : List ColumnDefinition) (src : String),
      fkFindSourceColumn cols src = none ↔ ∀ c ∈ cols, c.name ≠ src) := by
  refine ⟨?_, ?_, ?_⟩
  · intro st t1 c1 t2 c2 dOid tOid cOid rt ht hc
    by_cases h : tOid = INVALID_TABLE_OID
    · by_cases htn : strLower t2 = ""
      · have h1 : strLower t1 = "" := ht.trans htn
        rw [columnValueVisit_unqualified st ⟨t1, c1, dOid, tOid, cOid, rt⟩ h h1,
          columnValueVisit_unqualified st ⟨t2, c2, dOid, tOid, cOid, rt⟩ h htn]
        dsimp only
        rw [hc]
        cases hsp : setColumnPosTuple st (strLower c2) with
        | error e => simp [normalizeResolution]
        | ok o =>
          cases o with
          | none => simp [normalizeResolution]
          | some t => simp [normalizeResolution, applyTableBinding]
      · have h1 : strLower t1 ≠ "" := by
          rw [ht]
          exact htn
        rw [columnValueVisit_qualified st ⟨t1, c1, dOid, tOid, cOid, rt⟩ h h1,
          columnValueVisit_qualified st ⟨t2, c2, dOid, tOid, cOid, rt⟩ h htn]
        dsimp only
        rw [ht, hc]
        cases hr : getRegularTableObj st (strLower t2) with
        | some t =>
          by_cases hcol : BinderContext.ColumnInSchema t.schema (strLower c2) <;>
            simp [hcol, normalizeResolution, applyTableBinding]
        | none =>
          cases hn : checkNestedTableColumn st (strLower t2) (strLower c2) with
          | error e => simp [normalizeResolution]
          | ok o =>
            cases o with
            | none => simp [normalizeResolution]
            | some c => simp [normalizeResolution, applyNestedBinding]
    · simp [columnValueVisit, h, normalizeResolution]
  · intro cols src c hfind
    have h := List.find?_some hfind
    exact of_decide_eq_true h
  · intro cols src
    simp [fkFindSourceColumn, List.find?_eq_none]

/-- Witness for amended C9: the references id and ID against the users
frame resolve to the same (db, table, column, type). -/
theorem case_insensitive_resolution_amended_witness :
    normalizeResolution (columnValueVisit framesUsers ⟨"", "ID", 0, 0, 0, .Invalid⟩) =
      normalizeResolution (columnValueVisit framesUsers ⟨"", "id", 0, 0, 0, .Invalid⟩) :=
  case_insensitive_resolution_amended.1 framesUsers "" "ID" "" "id" 0 0 0 .Invalid rfl
    (by decide)

/-- Claim C7: a query-derived table in a FROM clause without an alias
fails with the missing-alias error; with an alias, the enclosing frame
stack is saved, the subselect is bound, the saved enclosing stack is
restored as the current one, and a NestedTableBinding for the alias
carrying the subselect's projected columns is installed in the
enclosing frame (the parse-result effects of the subselect binding are
kept). -/
theorem derived_table_binding (cat : CatalogAccessor) (ddb : String) (fuel : Nat)
    (node : TableRef) (sel : SelectStatement) (s : BinderSt)
    (hsel : node.select = some sel) :
    (node.refAlias = "" →
      tableRefVisit cat ddb (fuel + 1) node s =
        .err ⟨.MissingAlias, "Alias not found for query derived table"⟩ s) ∧
    (node.refAlias ≠ "" →
      ∀ sel' s', selectVisit cat ddb fuel sel s = .ok sel' s' →
        tableRefVisit cat ddb (fuel + 1) node s =
          .ok ((node.tryBindDatabaseName ddb).withSelect sel')
            { s' with context :=
                addNestedTable node.refAlias (nestedColumns sel'.columns) s.context }) := by
  have hs : (node.tryBindDatabaseName ddb).select = some sel := by
    rw [tryBindDatabaseName_select]
    exact hsel
  have ha : (node.tryBindDatabaseName ddb).refAlias = node.refAlias :=
    tryBindDatabaseName_refAlias ddb node
  constructor
  · intro he
    simp only [tableRefVisit]
    rw [hs, ha]
    simp [he]
  · intro he sel' s' hbind
    simp only [tableRefVisit]
    rw [hs, ha]
    simp only [he, if_false, hbind, bindBRes]

/-- Witness for C7: binding the derived table (SELECT 1) AS sub from a
one-frame stack installs the nested binding sub with its single
integer projected column in that frame. -/
theorem derived_table_binding_witness :
    tableRefVisit catEmpty "d" 4 nodeW ⟨[BinderContext.empty], []⟩ =
      .ok ((nodeW.tryBindDatabaseName "d").withSelect selW')
        { context := addNestedTable "sub" (nestedColumns selW'.columns) [BinderContext.empty],
          parseResult := [] } :=
  (derived_table_binding catEmpty "d" 3 nodeW selW ⟨[BinderContext.empty], []⟩ rfl).2
    (by decide) selW' ⟨[BinderContext.empty], []⟩ rfl

end Terrier
